import Mathlib

/-!
Shallow embedding of the chat-history handlers in `main.go` of the
`chat-website-agent` repository (Modus serverless functions backed by a
Dgraph graph store and an OpenAI-style model client), together with
theorems checking the specification of the repository against it.

Modelling conventions:
* `time.Time` values are modelled as `Nat` nanoseconds since the epoch
  (all timestamps in the code are produced by `time.Now().UTC()`);
  `time.Millisecond` is `1000000` of these units.
* The two external collaborators (graph store, model client) are oracles:
  each call the handler makes is represented by a field of an environment
  record carrying the outcome of that call, exactly as the Go code consumes it.
* Fallible Go calls returning `(T, error)` become `Except String T`;
  a Go slice-index panic becomes an explicit `.panic` outcome.
-/

/-- `const defaultSystemPrompt` in main.go. -/
def defaultSystemPrompt : String := "You are a helpful assistant"

/-- `const modelName` in main.go. -/
def modelName : String := "google-gemini"

/-- `const dgraphConnectionName` in main.go. -/
def dgraphConnectionName : String := "website"

/-- `time.Millisecond` in nanoseconds, the unit we model `time.Time` in. -/
def oneMillisecond : Nat := 1000000

/-- `DgraphChatMessage` struct: UID, Role, Content, Timestamp, DgraphType. -/
structure DgraphChatMessage where
  uid : String
  role : String
  content : String
  timestamp : Nat
  dgraphType : List String
deriving DecidableEq

/-- `ChatResponse` struct: the value `Chat` returns on success. -/
structure ChatResponse where
  content : String
deriving DecidableEq

/-- `ClearChatResponse` struct: success flag plus human-readable message. -/
structure ClearChatResponse where
  success : Bool
  message : String
deriving DecidableEq

/-- One record of the `messages` block parsed from the Dgraph query response
in `loadHistoryFromDgraph` (fields uid/role/content/timestamp). -/
structure LoadedMessage where
  uid : String
  role : String
  content : String
  timestamp : Nat
deriving DecidableEq

/-- Outcome of the graph-store read performed by `loadHistoryFromDgraph`:
the `dgraph.ExecuteQuery` call can fail, the `json.Unmarshal` of its
response can fail, or parsing succeeds with the `messages` array (which Go
distinguishes as nil versus a — possibly empty — slice). -/
inductive QueryOutcome where
  | queryErr (e : String)
  | parseErr (e : String)
  | ok (messages : Option (List LoadedMessage))

/-- Conversion applied to each parsed record in the loop of
`loadHistoryFromDgraph` (DgraphType is left unset for loaded messages). -/
def toChatMessage (m : LoadedMessage) : DgraphChatMessage :=
  { uid := m.uid, role := m.role, content := m.content,
    timestamp := m.timestamp, dgraphType := [] }

/-- Comparison used by the client-side re-sort: `sort.SliceStable` with the
less function `Timestamp.Before`; a stable sort driven by the strict order
`<` on `Nat` is the stable merge sort under the total order `≤`. -/
def timestampLe (a b : DgraphChatMessage) : Bool :=
  decide (a.timestamp ≤ b.timestamp)

/-- `loadHistoryFromDgraph`: runs the session query (executed by the
external store, here the `resp` oracle), propagates query and unmarshal
errors wrapped with the session id, converts the parsed records, and
re-sorts them client-side with `sort.SliceStable` on `Timestamp.Before`. -/
def loadHistoryFromDgraph (resp : QueryOutcome) (sessionID : String) :
    Except String (List DgraphChatMessage) :=
  match resp with
  | .queryErr e =>
      .error ("dgraph.ExecuteQuery failed for session " ++ sessionID ++ ": " ++ e)
  | .parseErr e =>
      .error ("failed to unmarshal Dgraph response for session " ++ sessionID ++ ": " ++ e)
  | .ok messages =>
      let chatMessages : List DgraphChatMessage :=
        match messages with
        | none => []
        | some ms => ms.map toChatMessage
      .ok (chatMessages.mergeSort timestampLe)

/-- `openai.RequestMessage` as produced by `NewSystemMessage`,
`NewUserMessage`, `NewAssistantMessage`. -/
inductive RequestMessage where
  | system (content : String)
  | user (content : String)
  | assistant (content : String)
deriving DecidableEq

/-- The projection loop of `Chat` (step 3): role-tagged history to model
messages; any role outside system/user/assistant is silently dropped. -/
def toModelMessages (hist : List DgraphChatMessage) : List RequestMessage :=
  hist.filterMap fun msg =>
    match msg.role with
    | "system" => some (.system msg.content)
    | "user" => some (.user msg.content)
    | "assistant" => some (.assistant msg.content)
    | _ => none

/-- `output.Choices[i].Message` of the model SDK. -/
structure ChoiceMessage where
  content : String
deriving DecidableEq

/-- One element of `output.Choices`. -/
structure Choice where
  message : ChoiceMessage
deriving DecidableEq

/-- The model invocation output: its list of choices. -/
structure ModelOutput where
  choices : List Choice
deriving DecidableEq

/-- Oracle environment for one `Chat` invocation: the outcome of each
external call the handler makes, plus the instants the successive
`time.Now().UTC()` reads return (`tSys` for the default-system-prompt
stamp, `tUser` for the user message, `tAsst` for the assistant message). -/
structure ChatEnv where
  getModel : Except String Unit
  load : QueryOutcome
  tSys : Nat
  tUser : Nat
  tAsst : Nat
  createInput : Except String Unit
  invoke : Except String ModelOutput
  save : Except String Unit

/-- Result of a `Chat` call: a reply, a propagated error, or a Go runtime
panic (the unguarded `output.Choices[0]` index). -/
inductive ChatOutcome where
  | ok (resp : ChatResponse)
  | error (e : String)
  | panic (msg : String)

/-- Observable trace of one `Chat` call: its outcome, the message list the
model was invoked with (when the invocation was reached), the
`newMessagesToPersist` batch handed to `saveNewMessagesToDgraph` (when
reached), and the error log lines printed. -/
structure ChatTrace where
  outcome : ChatOutcome
  sentToModel : Option (List RequestMessage)
  newMessagesToPersist : Option (List DgraphChatMessage)
  logs : List String

/-- `Chat(sessionID, userMessage)`: resolve the model, load history
(falling back to empty on failure), add the default system prompt when the
history is empty, add the new user message, project to model messages,
invoke the model, trim the first choice, and persist the two new messages
— logging but not propagating a persistence failure. -/
def Chat (env : ChatEnv) (sessionID userMessage : String) : ChatTrace :=
  match env.getModel with
  | .error e =>
      { outcome := .error ("error getting model: " ++ e),
        sentToModel := none, newMessagesToPersist := none, logs := [] }
  | .ok _ =>
    let loadRes := loadHistoryFromDgraph env.load sessionID
    let loadLogs : List String :=
      match loadRes with
      | .error e => ["Error loading history for session " ++ sessionID ++ ": "
          ++ e ++ ". Treating as new session."]
      | .ok _ => []
    let loadedMessages : List DgraphChatMessage :=
      match loadRes with
      | .error _ => []
      | .ok ms => ms
    let currentBase : List DgraphChatMessage :=
      if loadedMessages.length = 0 then
        [{ uid := "", role := "system", content := defaultSystemPrompt,
           timestamp := env.tSys, dgraphType := [] }]
      else loadedMessages
    let userMessageToSave : DgraphChatMessage :=
      { uid := "", role := "user", content := userMessage,
        timestamp := env.tUser, dgraphType := ["ChatMessage"] }
    let currentChatHistoryForLLM := currentBase ++ [userMessageToSave]
    let modelMessagesForOpenAI := toModelMessages currentChatHistoryForLLM
    match env.createInput with
    | .error e =>
        { outcome := .error ("error creating model input: " ++ e),
          sentToModel := none, newMessagesToPersist := none, logs := loadLogs }
    | .ok _ =>
      match env.invoke with
      | .error e =>
          { outcome := .error ("error invoking model: " ++ e),
            sentToModel := some modelMessagesForOpenAI,
            newMessagesToPersist := none, logs := loadLogs }
      | .ok output =>
        match output.choices with
        | [] =>
            { outcome := .panic "runtime error: index out of range [0] with length 0",
              sentToModel := some modelMessagesForOpenAI,
              newMessagesToPersist := none, logs := loadLogs }
        | choice :: _ =>
          let assistantContent := String.trim choice.message.content
          let assistantMessageToSave : DgraphChatMessage :=
            { uid := "", role := "assistant", content := assistantContent,
              timestamp := env.tAsst + oneMillisecond,
              dgraphType := ["ChatMessage"] }
          let persistBatch := [userMessageToSave, assistantMessageToSave]
          let saveLogs : List String :=
            match env.save with
            | .error e => ["CRITICAL: Error saving new messages for session "
                ++ sessionID ++ ": " ++ e ++ ". Subsequent history may be incomplete."]
            | .ok _ => []
          { outcome := .ok { content := assistantContent },
            sentToModel := some modelMessagesForOpenAI,
            newMessagesToPersist := some persistBatch,
            logs := loadLogs ++ saveLogs }

/-- `SayHello(name *string)`: greets the pointed-to name, or "World" when
the pointer is nil; a Go nil-able pointer is an `Option`. -/
def SayHello (name : Option String) : String :=
  let s : String :=
    match name with
    | none => "World"
    | some n => n
  "Hello, " ++ s ++ "!"

/-- A value stored under a key of one of the `map[string]interface{}`
mutation objects built in main.go: the code only ever stores plain strings
or a nested `{"uid": <blank-node>}` reference map. -/
inductive JsonVal where
  | str (s : String)
  | uidObj (label : String)
deriving DecidableEq

/-- One mutation object, as an ordered field list. -/
def JObj : Type := List (String × JsonVal)

/-- Stand-in for `msg.Timestamp.Format(time.RFC3339Nano)`: the Go RFC 3339
rendering is injective on instants, so any injective `Nat → String`
rendering models it faithfully for these claims. -/
def formatRFC3339Nano (t : Nat) : String := toString t

/-- `sessionUpsertObject` in `saveNewMessagesToDgraph`: a blank-node
session object carrying the sessionID. -/
def sessionUpsertObject (sessionID : String) : JObj :=
  [("uid", .str "_:session"),
   ("ChatSession.sessionID", .str sessionID),
   ("dgraph.type", .str "ChatSession")]

/-- `chatMessageObject` built for the i-th new message in
`saveNewMessagesToDgraph`. -/
def chatMessageObject (i : Nat) (msg : DgraphChatMessage) : JObj :=
  [("uid", .str ("_:msg" ++ toString i)),
   ("dgraph.type", .str "ChatMessage"),
   ("ChatMessage.role", .str msg.role),
   ("ChatMessage.content", .str msg.content),
   ("ChatMessage.timestamp", .str (formatRFC3339Nano msg.timestamp)),
   ("in_session", .uidObj "_:session")]

/-- `sessionLinkToMessage` built for the i-th new message in
`saveNewMessagesToDgraph`. -/
def sessionLinkToMessage (i : Nat) : JObj :=
  [("uid", .str "_:session"),
   ("ChatSession.has_message", .uidObj ("_:msg" ++ toString i))]

/-- The per-message part of the `dgraphMutations` slice: the loop of
`saveNewMessagesToDgraph`, appending for the i-th message its message
object and its session-to-message link object. -/
def messageMutationObjects : Nat → List DgraphChatMessage → List JObj
  | _, [] => []
  | i, msg :: rest =>
      chatMessageObject i msg :: sessionLinkToMessage i ::
        messageMutationObjects (i + 1) rest

/-- The `dgraphMutations` slice assembled by `saveNewMessagesToDgraph`:
the session object followed by, per message, its message object and its
session-to-message link object. -/
def dgraphMutationObjects (sessionID : String)
    (newMessages : List DgraphChatMessage) : List JObj :=
  sessionUpsertObject sessionID :: messageMutationObjects 0 newMessages

/-- `dgraph.Mutation` as this program uses it: a SetJson payload (here
kept as the object list that gets marshalled) and DelNquads deletions
given as (uid, predicate) pairs; the program never fills DelNquads. -/
structure Mutation where
  setJson : List JObj := []
  delNquads : List (Nat × String) := []

/-- `saveNewMessagesToDgraph(sessionID, newMessages)`: the single
`dgraph.Mutation` handed to the one `dgraph.ExecuteMutations` call — all
objects marshalled into one SetJson payload, committed together. -/
def saveNewMessagesToDgraph (sessionID : String)
    (newMessages : List DgraphChatMessage) : Mutation :=
  { setJson := dgraphMutationObjects sessionID newMessages }

/-- The mutation `ClearChat` executes: `&dgraph.Mutation{}` — empty. -/
def clearChatMutation : Mutation := {}

/-- `ClearChat(sessionID)`: executes the empty mutation; on failure of the
store call it returns a `{success:false, message}` response and a nil
error, on success a fixed success message and a nil error. -/
def ClearChat (execResult : Except String Unit) (sessionID : String) :
    Except String ClearChatResponse :=
  match execResult with
  | .error e =>
      .ok { success := false,
            message := "Failed to clear chat history from Dgraph: " ++ toString e }
  | .ok _ =>
      .ok { success := true,
            message := "Chat history cleared successfully from Dgraph." }

/-- A value of a stored graph fact after blank-node resolution: a string
literal or a reference to a node UID. -/
inductive StoreVal where
  | str (s : String)
  | uid (u : Nat)
deriving DecidableEq

/-- One (subject, predicate, value) fact of the graph store. -/
structure GraphFact where
  subj : Nat
  pred : String
  val : StoreVal
deriving DecidableEq

/-- The external Dgraph store, modelled as a fresh-UID counter plus a fact
list; `nextUid` is the next UID the store will allocate. -/
structure Store where
  nextUid : Nat
  facts : List GraphFact
deriving DecidableEq

/-- First-occurrence deduplication (used for blank-node label allocation
order). -/
def dedupFirst {α : Type} [DecidableEq α] (seen : List α) : List α → List α
  | [] => []
  | x :: xs =>
      if x ∈ seen then dedupFirst seen xs else x :: dedupFirst (x :: seen) xs

/-- The top-level "uid" field of a mutation object, when it is a string
label (the program always sets one, always a blank-node label). -/
def topUidLabel (obj : JObj) : Option String :=
  match List.lookup "uid" obj with
  | some (.str s) => some s
  | _ => none

/-- UID a label resolves to in one mutation: blank labels are allocated
fresh UIDs from `nextUid` in order of first appearance across the payload
(the payloads of this program only ever name blank-node labels). -/
def uidFor (st : Store) (labels : List String) (label : String) : Nat :=
  st.nextUid + labels.indexOf label

/-- Resolution of a payload value against the allocation of the mutation. -/
def resolveVal (st : Store) (labels : List String) : JsonVal → StoreVal
  | .str s => .str s
  | .uidObj label => .uid (uidFor st labels label)

/-- Facts contributed by one mutation object: every non-uid field becomes
a fact on the resolved UID of the object. -/
def objFacts (st : Store) (labels : List String) (obj : JObj) : List GraphFact :=
  match topUidLabel obj with
  | none => []
  | some label =>
      (obj.filter fun kv => kv.1 ≠ "uid").map fun kv =>
        { subj := uidFor st labels label, pred := kv.1, val := resolveVal st labels kv.2 }

/-- Dgraph semantics of a SetJson payload of the shapes this program
emits: every distinct blank-node label is allocated a fresh UID — a plain
set mutation never merges with existing nodes by attribute value — and the
facts of the payload are added to the store in one transaction. -/
def applySetJson (objs : List JObj) (st : Store) : Store :=
  let labels := dedupFirst [] (objs.filterMap topUidLabel)
  { nextUid := st.nextUid + labels.length,
    facts := st.facts ++ objs.flatMap (objFacts st labels) }

/-- Dgraph semantics of DelNquads deletion: drops every fact whose
(subject, predicate) pair is listed. -/
def applyDelNquads (dels : List (Nat × String)) (st : Store) : Store :=
  { st with facts := st.facts.filter fun f => ¬ (f.subj, f.pred) ∈ dels }

/-- One `dgraph.ExecuteMutations` call: deletions then the set payload,
committed together. -/
def applyMutation (m : Mutation) (st : Store) : Store :=
  applySetJson m.setJson (applyDelNquads m.delNquads st)

/-- UIDs of the session nodes carrying a given sessionID, in store order. -/
def sessionNodes (st : Store) (sessionID : String) : List Nat :=
  dedupFirst []
    ((st.facts.filter fun f =>
        f.pred = "ChatSession.sessionID" ∧ f.val = .str sessionID).map GraphFact.subj)

/-- UIDs of the ChatMessage nodes whose in_session edge points into the
given session-node list. -/
def messageNodesOf (st : Store) (sessions : List Nat) : List Nat :=
  dedupFirst []
    ((st.facts.filter fun f =>
        f.pred = "in_session" ∧ ∃ u ∈ sessions, f.val = .uid u).map GraphFact.subj)

/-- A concrete store holding session "s1" with N = 1 stored message:
session node 1 and message node 2 linked to it. -/
def storeOneMessage : Store :=
  { nextUid := 3,
    facts := [
      { subj := 1, pred := "ChatSession.sessionID", val := .str "s1" },
      { subj := 1, pred := "dgraph.type", val := .str "ChatSession" },
      { subj := 2, pred := "ChatMessage.role", val := .str "user" },
      { subj := 2, pred := "ChatMessage.content", val := .str "hi" },
      { subj := 2, pred := "in_session", val := .uid 1 },
      { subj := 1, pred := "ChatSession.has_message", val := .uid 2 }] }

/-- C10: SayHello greets "World" for a nil pointer and the pointed-to name
otherwise; it is a pure, total function of its single argument. -/
theorem SayHello_spec :
    SayHello none = "Hello, World!" ∧
      ∀ name : String, SayHello (some name) = "Hello, " ++ name ++ "!" := by
  exact ⟨rfl, fun name => rfl⟩

/-- C5: ClearChat always returns a nil error with a structured response,
and the success flag of the response is false exactly when the underlying store
call failed — failures are captured, never propagated. -/
theorem ClearChat_never_hard_error (execResult : Except String Unit) (sessionID : String) :
    ∃ resp : ClearChatResponse, ClearChat execResult sessionID = .ok resp ∧
      (resp.success = false ↔ ∃ e, execResult = .error e) := by
  cases execResult with
  | error e => exact ⟨_, rfl, by simp⟩
  | ok u => cases u; exact ⟨_, rfl, by simp⟩

/-- C2 (code bug): the mutation ClearChat executes is the empty mutation —
applying it leaves every store unchanged, so zero records are deleted —
and its success message is one fixed string carrying no count. On the
failing input (session "s1" holding N = 1 message, `storeOneMessage`) the
claim would require 2 deletions and a message mentioning 1. -/
theorem ClearChat_deletes_nothing :
    (∀ st : Store, applyMutation clearChatMutation st = st) ∧
      ClearChat (.ok ()) "s1" =
        .ok { success := true,
              message := "Chat history cleared successfully from Dgraph." } ∧
      messageNodesOf storeOneMessage (sessionNodes storeOneMessage "s1") = [2] ∧
      applyMutation clearChatMutation storeOneMessage = storeOneMessage := by
  have hid : ∀ st : Store, applyMutation clearChatMutation st = st := by
    intro st
    cases st with
    | mk nextUid facts =>
      simp [applyMutation, clearChatMutation, applyDelNquads, applySetJson,
        dedupFirst, objFacts]
  exact ⟨hid, rfl, by decide, hid storeOneMessage⟩

/-- C8: a successful read that matches no stored messages — the parsed
messages array being nil or empty — yields an empty history and no error. -/
theorem loadHistoryFromDgraph_empty_ok (sessionID : String) :
    loadHistoryFromDgraph (.ok none) sessionID = .ok [] ∧
      loadHistoryFromDgraph (.ok (some [])) sessionID = .ok [] := by
  constructor <;> simp [loadHistoryFromDgraph, List.mergeSort_nil]

/-- The re-sort comparison is transitive. -/
theorem timestampLe_trans : ∀ a b c : DgraphChatMessage,
    timestampLe a b = true → timestampLe b c = true → timestampLe a c = true := by
  intro a b c hab hbc
  simp only [timestampLe, decide_eq_true_eq] at *
  exact le_trans hab hbc

/-- The re-sort comparison is total. -/
theorem timestampLe_total : ∀ a b : DgraphChatMessage,
    (timestampLe a b || timestampLe b a) = true := by
  intro a b
  simp only [timestampLe, Bool.or_eq_true, decide_eq_true_eq]
  exact Nat.le_total _ _

/-- Stability of the client-side re-sort: the subsequence of messages
carrying any one timestamp is returned unchanged. -/
theorem mergeSort_timestamp_filter (l : List DgraphChatMessage) (t : Nat) :
    (l.mergeSort timestampLe).filter (fun m => m.timestamp == t) =
      l.filter (fun m => m.timestamp == t) := by
  have hpw : (l.filter (fun m => m.timestamp == t)).Pairwise
      (fun a b => timestampLe a b = true) := by
    apply List.pairwise_of_forall_mem_list
    intro a ha b hb
    have ha' := (List.mem_filter.mp ha).2
    have hb' := (List.mem_filter.mp hb).2
    simp only [beq_iff_eq] at ha' hb'
    simp [timestampLe, ha', hb']
  have hsub : (l.filter (fun m => m.timestamp == t)).Sublist (l.mergeSort timestampLe) :=
    List.sublist_mergeSort timestampLe_trans timestampLe_total hpw (List.filter_sublist l)
  have hsub2 := hsub.filter (fun m => m.timestamp == t)
  rw [List.filter_filter] at hsub2
  simp only [Bool.and_self] at hsub2
  have hperm : ((l.mergeSort timestampLe).filter (fun m => m.timestamp == t)).Perm
      (l.filter (fun m => m.timestamp == t)) :=
    (List.mergeSort_perm l timestampLe).filter _
  exact (hsub2.eq_of_length hperm.length_eq.symm).symm

/-- C7: for every store response, loadHistory returns the converted
records re-sorted into non-decreasing timestamp order; the sort is a
permutation and is stable — the relative order of equal-timestamp messages
is preserved (their filtered subsequence at each timestamp is unchanged). -/
theorem loadHistoryFromDgraph_sorted_stable (raw : List LoadedMessage) (sessionID : String) :
    ∃ msgs : List DgraphChatMessage,
      loadHistoryFromDgraph (.ok (some raw)) sessionID = .ok msgs ∧
      msgs.Pairwise (fun a b => a.timestamp ≤ b.timestamp) ∧
      msgs.Perm (raw.map toChatMessage) ∧
      ∀ t : Nat, msgs.filter (fun m => m.timestamp == t) =
        (raw.map toChatMessage).filter (fun m => m.timestamp == t) := by
  refine ⟨(raw.map toChatMessage).mergeSort timestampLe, rfl, ?_, ?_, ?_⟩
  · have h := List.sorted_mergeSort timestampLe_trans timestampLe_total
      (raw.map toChatMessage)
    refine h.imp ?_
    intro a b hab
    simpa [timestampLe] using hab
  · exact List.mergeSort_perm _ _
  · intro t
    exact mergeSort_timestamp_filter _ t

/-- C9: Chat extracts its reply from the model output with an unguarded
first-index access: with at least one choice the reply is the content of
that choice with surrounding whitespace trimmed; with zero choices the access
is out of bounds (a runtime panic). -/
theorem Chat_first_choice_extraction (env : ChatEnv) (sessionID userMessage : String)
    (hm : env.getModel = .ok ()) (hci : env.createInput = .ok ()) :
    (∀ (c : Choice) (cs : List Choice), env.invoke = .ok ⟨c :: cs⟩ →
      (Chat env sessionID userMessage).outcome =
        .ok { content := String.trim c.message.content }) ∧
    (env.invoke = .ok ⟨[]⟩ →
      (Chat env sessionID userMessage).outcome =
        .panic "runtime error: index out of range [0] with length 0") := by
  constructor
  · intro c cs hinv
    simp [Chat, hm, hci, hinv]
  · intro hinv
    simp [Chat, hm, hci, hinv]

/-- C6: when persisting the turn fails after the model produced a reply,
Chat still returns that reply with a nil error, and its outcome is
identical to the outcome with a successful persist (only the logged lines
differ). -/
theorem Chat_reply_independent_of_save_failure (env : ChatEnv) (sessionID userMessage : String)
    (hm : env.getModel = .ok ()) (hci : env.createInput = .ok ())
    (out : ModelOutput) (hinv : env.invoke = .ok out)
    (c : Choice) (cs : List Choice) (hc : out.choices = c :: cs) (e : String) :
    (Chat { env with save := .error e } sessionID userMessage).outcome =
      .ok { content := String.trim c.message.content } ∧
    (Chat { env with save := .error e } sessionID userMessage).outcome =
      (Chat { env with save := .ok () } sessionID userMessage).outcome := by
  constructor <;> simp [Chat, hm, hci, hinv, hc]

/-- C4: when the loaded history is empty or the history load fails, Chat
(whose model call succeeds) returns a non-error reply and the message
sequence sent to the model is exactly the default system message followed
by the new user message. -/
theorem Chat_empty_history_default_prompt (env : ChatEnv) (sessionID userMessage : String)
    (hm : env.getModel = .ok ())
    (hload : loadHistoryFromDgraph env.load sessionID = .ok [] ∨
      ∃ e, loadHistoryFromDgraph env.load sessionID = .error e)
    (hci : env.createInput = .ok ())
    (out : ModelOutput) (hinv : env.invoke = .ok out)
    (c : Choice) (cs : List Choice) (hc : out.choices = c :: cs) :
    (Chat env sessionID userMessage).outcome =
      .ok { content := String.trim c.message.content } ∧
    (Chat env sessionID userMessage).sentToModel =
      some [.system defaultSystemPrompt, .user userMessage] := by
  rcases hload with hload | ⟨e, hload⟩ <;>
    constructor <;>
      simp [Chat, hm, hci, hinv, hc, hload, toModelMessages]

/-- C1 (amended): on every Chat call that returns a reply, the persisted
user message is stamped with its own captured instant and the persisted
assistant message with a second captured instant plus one millisecond, so
the assistant timestamp is strictly later whenever the clock between the
two reads is non-decreasing. -/
theorem Chat_turn_timestamps (env : ChatEnv) (sessionID userMessage : String)
    (hm : env.getModel = .ok ()) (hci : env.createInput = .ok ())
    (out : ModelOutput) (hinv : env.invoke = .ok out)
    (c : Choice) (cs : List Choice) (hc : out.choices = c :: cs) :
    ∃ userRec asstRec : DgraphChatMessage,
      (Chat env sessionID userMessage).newMessagesToPersist = some [userRec, asstRec] ∧
      userRec.timestamp = env.tUser ∧
      asstRec.timestamp = env.tAsst + oneMillisecond ∧
      (env.tUser ≤ env.tAsst → userRec.timestamp < asstRec.timestamp) := by
  refine ⟨{ uid := "", role := "user", content := userMessage,
            timestamp := env.tUser, dgraphType := ["ChatMessage"] },
          { uid := "", role := "assistant", content := String.trim c.message.content,
            timestamp := env.tAsst + oneMillisecond, dgraphType := ["ChatMessage"] },
          ?_, rfl, rfl, ?_⟩
  · simp [Chat, hm, hci, hinv, hc]
  · intro h
    simp only [oneMillisecond]
    omega

/-- Oracle environment for the C1 counterexample and witness: every clock read
returns the same instant 0 — the strongest reading of "one captured
instant" — and all external calls succeed with one choice "ok". -/
def envFrozenClock : ChatEnv :=
  { getModel := .ok (), load := .ok none, tSys := 0, tUser := 0, tAsst := 0,
    createInput := .ok (), invoke := .ok { choices := [{ message := { content := "ok" } }] },
    save := .ok () }

/-- C1 (counterexample): a Chat call that returns a reply — with every
clock read frozen at instant 0 — persists a user record stamped 0 and an
assistant record stamped one millisecond later, so the two records do not
carry an identical timestamp. -/
theorem Chat_identical_timestamp_counterexample :
    (Chat envFrozenClock "s1" "hi").outcome = .ok { content := String.trim "ok" } ∧
    ((Chat envFrozenClock "s1" "hi").newMessagesToPersist.map
        (fun l => l.map DgraphChatMessage.timestamp)) = some [0, oneMillisecond] ∧
    (0 : Nat) ≠ oneMillisecond := by
  refine ⟨?_, ?_, by decide⟩ <;>
    simp [Chat, envFrozenClock, loadHistoryFromDgraph, List.mergeSort_nil, oneMillisecond]

/-- Witness for the amended C1 theorem at the frozen-clock environment. -/
theorem Chat_turn_timestamps_witness :
    ∃ userRec asstRec : DgraphChatMessage,
      (Chat envFrozenClock "s1" "hi").newMessagesToPersist = some [userRec, asstRec] ∧
      userRec.timestamp = envFrozenClock.tUser ∧
      asstRec.timestamp = envFrozenClock.tAsst + oneMillisecond ∧
      (envFrozenClock.tUser ≤ envFrozenClock.tAsst →
        userRec.timestamp < asstRec.timestamp) :=
  Chat_turn_timestamps envFrozenClock "s1" "hi" rfl rfl
    { choices := [{ message := { content := "ok" } }] } rfl
    { message := { content := "ok" } } [] rfl

/-- Witness for the C4 theorem: fresh session, all external calls succeed. -/
theorem Chat_empty_history_default_prompt_witness :
    (Chat envFrozenClock "s1" "hi").outcome = .ok { content := String.trim "ok" } ∧
    (Chat envFrozenClock "s1" "hi").sentToModel =
      some [.system defaultSystemPrompt, .user "hi"] :=
  Chat_empty_history_default_prompt envFrozenClock "s1" "hi" rfl
    (Or.inl (by simp [envFrozenClock, loadHistoryFromDgraph, List.mergeSort_nil]))
    rfl { choices := [{ message := { content := "ok" } }] } rfl
    { message := { content := "ok" } } [] rfl

/-- Witness for the C6 theorem: the reply survives a failing persist and
matches the successful-persist outcome. -/
theorem Chat_reply_independent_of_save_failure_witness :
    (Chat { envFrozenClock with save := .error "boom" } "s1" "hi").outcome =
      .ok { content := String.trim "ok" } ∧
    (Chat { envFrozenClock with save := .error "boom" } "s1" "hi").outcome =
      (Chat { envFrozenClock with save := .ok () } "s1" "hi").outcome :=
  Chat_reply_independent_of_save_failure envFrozenClock "s1" "hi" rfl rfl
    { choices := [{ message := { content := "ok" } }] } rfl
    { message := { content := "ok" } } [] rfl "boom"

/-- Witness for the C9 theorem, covering both branches: one choice gives
the trimmed reply; zero choices give the out-of-bounds panic. -/
theorem Chat_first_choice_extraction_witness :
    (Chat envFrozenClock "s1" "hi").outcome = .ok { content := String.trim "ok" } ∧
    (Chat { envFrozenClock with invoke := .ok { choices := [] } } "s1" "hi").outcome =
      .panic "runtime error: index out of range [0] with length 0" := by
  constructor
  · exact (Chat_first_choice_extraction envFrozenClock "s1" "hi" rfl rfl).1
      { message := { content := "ok" } } [] rfl
  · exact (Chat_first_choice_extraction
      { envFrozenClock with invoke := .ok { choices := [] } } "s1" "hi" rfl rfl).2 rfl

/-- Deleting nothing (the empty DelNquads list) leaves the store as is. -/
theorem applyDelNquads_nil (st : Store) : applyDelNquads [] st = st := by
  cases st with
  | mk n fs => simp [applyDelNquads]

/-- The amended C3 property, stated over the store semantics: applying the
one batched mutation of appendMessages (for a two-message turn batch, the
only batch size the program issues) keeps every pre-existing fact, creates
a fresh session node carrying the sessionID at the next store UID — not
reusing any existing node — and creates one node per message holding its
role, content and timestamp, linked to the fresh session node by
in_session and ChatSession.has_message edges, all in that single write. -/
def AppendBatchCreatesLinkedNodes (sessionID : String) (m1 m2 : DgraphChatMessage)
    (st : Store) : Prop :=
  (∀ f ∈ st.facts,
    f ∈ (applyMutation (saveNewMessagesToDgraph sessionID [m1, m2]) st).facts) ∧
  (∀ f ∈ st.facts, f.subj ≠ st.nextUid) ∧
  ({ subj := st.nextUid, pred := "ChatSession.sessionID", val := .str sessionID } : GraphFact)
    ∈ (applyMutation (saveNewMessagesToDgraph sessionID [m1, m2]) st).facts ∧
  ({ subj := st.nextUid + 1, pred := "ChatMessage.role", val := .str m1.role } : GraphFact)
    ∈ (applyMutation (saveNewMessagesToDgraph sessionID [m1, m2]) st).facts ∧
  ({ subj := st.nextUid + 1, pred := "ChatMessage.content", val := .str m1.content } : GraphFact)
    ∈ (applyMutation (saveNewMessagesToDgraph sessionID [m1, m2]) st).facts ∧
  ({ subj := st.nextUid + 1, pred := "ChatMessage.timestamp",
     val := .str (formatRFC3339Nano m1.timestamp) } : GraphFact)
    ∈ (applyMutation (saveNewMessagesToDgraph sessionID [m1, m2]) st).facts ∧
  ({ subj := st.nextUid + 1, pred := "in_session", val := .uid st.nextUid } : GraphFact)
    ∈ (applyMutation (saveNewMessagesToDgraph sessionID [m1, m2]) st).facts ∧
  ({ subj := st.nextUid, pred := "ChatSession.has_message",
     val := .uid (st.nextUid + 1) } : GraphFact)
    ∈ (applyMutation (saveNewMessagesToDgraph sessionID [m1, m2]) st).facts ∧
  ({ subj := st.nextUid + 2, pred := "ChatMessage.role", val := .str m2.role } : GraphFact)
    ∈ (applyMutation (saveNewMessagesToDgraph sessionID [m1, m2]) st).facts ∧
  ({ subj := st.nextUid + 2, pred := "ChatMessage.content", val := .str m2.content } : GraphFact)
    ∈ (applyMutation (saveNewMessagesToDgraph sessionID [m1, m2]) st).facts ∧
  ({ subj := st.nextUid + 2, pred := "ChatMessage.timestamp",
     val := .str (formatRFC3339Nano m2.timestamp) } : GraphFact)
    ∈ (applyMutation (saveNewMessagesToDgraph sessionID [m1, m2]) st).facts ∧
  ({ subj := st.nextUid + 2, pred := "in_session", val := .uid st.nextUid } : GraphFact)
    ∈ (applyMutation (saveNewMessagesToDgraph sessionID [m1, m2]) st).facts ∧
  ({ subj := st.nextUid, pred := "ChatSession.has_message",
     val := .uid (st.nextUid + 2) } : GraphFact)
    ∈ (applyMutation (saveNewMessagesToDgraph sessionID [m1, m2]) st).facts

/-- C3 (amended): one batched write creates a fresh session node keyed by
sessionID and the new message nodes linked to it, committed together; it
never merges into an existing node (well-formed store: every stored
subject UID is below the allocation counter). -/
theorem saveNewMessagesToDgraph_single_batch (sessionID : String)
    (m1 m2 : DgraphChatMessage) (st : Store)
    (hwf : ∀ f ∈ st.facts, f.subj < st.nextUid) :
    AppendBatchCreatesLinkedNodes sessionID m1 m2 st := by
  have hmu : applyMutation (saveNewMessagesToDgraph sessionID [m1, m2]) st
      = applySetJson (dgraphMutationObjects sessionID [m1, m2]) (applyDelNquads [] st) := rfl
  have hall : (applyMutation (saveNewMessagesToDgraph sessionID [m1, m2]) st).facts
      = st.facts ++
        [{ subj := st.nextUid, pred := "ChatSession.sessionID", val := .str sessionID },
         { subj := st.nextUid, pred := "dgraph.type", val := .str "ChatSession" },
         { subj := st.nextUid + 1, pred := "dgraph.type", val := .str "ChatMessage" },
         { subj := st.nextUid + 1, pred := "ChatMessage.role", val := .str m1.role },
         { subj := st.nextUid + 1, pred := "ChatMessage.content", val := .str m1.content },
         { subj := st.nextUid + 1, pred := "ChatMessage.timestamp",
           val := .str (formatRFC3339Nano m1.timestamp) },
         { subj := st.nextUid + 1, pred := "in_session", val := .uid st.nextUid },
         { subj := st.nextUid, pred := "ChatSession.has_message",
           val := .uid (st.nextUid + 1) },
         { subj := st.nextUid + 2, pred := "dgraph.type", val := .str "ChatMessage" },
         { subj := st.nextUid + 2, pred := "ChatMessage.role", val := .str m2.role },
         { subj := st.nextUid + 2, pred := "ChatMessage.content", val := .str m2.content },
         { subj := st.nextUid + 2, pred := "ChatMessage.timestamp",
           val := .str (formatRFC3339Nano m2.timestamp) },
         { subj := st.nextUid + 2, pred := "in_session", val := .uid st.nextUid },
         { subj := st.nextUid, pred := "ChatSession.has_message",
           val := .uid (st.nextUid + 2) }] := by
    rw [hmu, applyDelNquads_nil]
    rfl
  refine ⟨?_, ?_, ?_, ?_, ?_, ?_, ?_, ?_, ?_, ?_, ?_, ?_, ?_⟩
  · intro f hf
    rw [hall]
    exact List.mem_append_left _ hf
  · intro f hf
    exact Nat.ne_of_lt (hwf f hf)
  all_goals simp [hall]

/-- A concrete fresh store for the C3 witness. -/
def wStore : Store := { nextUid := 0, facts := [] }

/-- Concrete user message of the C3 witness batch. -/
def wUser : DgraphChatMessage :=
  { uid := "", role := "user", content := "u", timestamp := 1, dgraphType := ["ChatMessage"] }

/-- Concrete assistant message of the C3 witness batch. -/
def wAsst : DgraphChatMessage :=
  { uid := "", role := "assistant", content := "a", timestamp := 1000001,
    dgraphType := ["ChatMessage"] }

/-- Witness for the amended C3 theorem on a fresh, empty store. -/
theorem saveNewMessagesToDgraph_single_batch_witness :
    AppendBatchCreatesLinkedNodes "w1" wUser wAsst wStore :=
  saveNewMessagesToDgraph_single_batch "w1" wUser wAsst wStore (by simp [wStore])

/-- A store already holding a session node (UID 1) with sessionID "s1". -/
def storeWithSession : Store :=
  { nextUid := 2, facts := [{ subj := 1, pred := "ChatSession.sessionID", val := .str "s1" }] }

/-- C3 (counterexample): appending a turn for session "s1" to a store that
already holds a session node with sessionID "s1" does not reuse that node:
afterwards two distinct nodes carry sessionID "s1" — the plain blank-node
set mutation creates a duplicate instead of upserting. -/
theorem saveNewMessagesToDgraph_duplicate_counterexample :
    sessionNodes storeWithSession "s1" = [1] ∧
    sessionNodes (applyMutation (saveNewMessagesToDgraph "s1"
      [{ uid := "", role := "user", content := "hi", timestamp := 5,
         dgraphType := ["ChatMessage"] },
       { uid := "", role := "assistant", content := "there", timestamp := 1000005,
         dgraphType := ["ChatMessage"] }]) storeWithSession) "s1" = [1, 2] := by
  constructor
  · decide
  · decide
